import Mathlib

/-!
Verification of the Feature Reconciliation & Risk Scoring Engine of the
credit-risk repository. The Python sources are shallowly embedded:

* `src/api/app.py` — the single-record (`predict`) and batch
  (`predict_batch`) scoring paths, lines 327–351 and 406–417;
* `src/features/feature_store.py` — `FeatureStore` (`load`,
  `transform_all`, `select_features`);
* `src/models/predictor.py` — `ModelProducao.predict_proba`.

Probabilities and thresholds are embedded as rationals; Python's
`round(x, n)` (half-to-even) is embedded as `pyRound`.
-/

namespace CreditRisk

/-- Python `round` to an integer: round half to even. -/
def roundHalfToEven (q : ℚ) : ℤ :=
  let n := ⌊q⌋
  let r := q - (n : ℚ)
  if r < 1/2 then n
  else if 1/2 < r then n + 1
  else if n % 2 = 0 then n else n + 1

/-- Python `round(q, ndigits)`. -/
def pyRound (ndigits : ℕ) (q : ℚ) : ℚ :=
  (roundHalfToEven (q * (10 : ℚ) ^ ndigits) : ℚ) / (10 : ℚ) ^ ndigits

/-- app.py line 329 / 410: `confianca = abs(prob_default - threshold)`. -/
def confianca (p t : ℚ) : ℚ := |p - t|

/-- app.py line 341: `nivel_confianca = min(confianca * 2, 1.0)`. -/
def nivel_confianca (p t : ℚ) : ℚ := min (confianca p t * 2) 1

/-- app.py lines 333–338: fixed probability bands for the risk tier. -/
def nivel_risco (p : ℚ) : String :=
  if p ≤ 30/100 then "Baixo"
  else if p ≤ 60/100 then "Médio"
  else "Alto"

/-- app.py line 328 / 409: threshold classification (boundary is high risk). -/
def classificacao (p t : ℚ) : String :=
  if p ≥ t then "Alto Risco" else "Baixo Risco"

/-- The JSON body returned by `predict` (app.py lines 343–351). -/
structure PredictResponse where
  probabilidade_default : ℚ
  probabilidade_percentual : ℚ
  classificacao : String
  nivel_risco : String
  confianca : ℚ
  nivel_confianca : ℚ
  threshold_usado : ℚ
  deriving DecidableEq, Repr

/-- app.py lines 327–351: scoring stage of the single-record path, from the
extracted default probability and the caller threshold to the response. -/
def scorePredict (prob_default threshold : ℚ) : PredictResponse :=
  { probabilidade_default := pyRound 4 prob_default
    probabilidade_percentual := pyRound 2 (prob_default * 100)
    classificacao := classificacao prob_default threshold
    nivel_risco := nivel_risco prob_default
    confianca := pyRound 4 (confianca prob_default threshold)
    nivel_confianca := pyRound 4 (nivel_confianca prob_default threshold)
    threshold_usado := threshold }

/-- One element of the `results` list of `predict_batch`
(app.py lines 408–415). -/
structure BatchItem where
  probabilidade_default : ℚ
  classificacao : String
  confianca : ℚ
  deriving DecidableEq, Repr

/-- app.py lines 408–415: per-record scoring of the batch path. -/
def scoreBatchItem (p t : ℚ) : BatchItem :=
  { probabilidade_default := pyRound 4 p
    classificacao := classificacao p t
    confianca := pyRound 4 (confianca p t) }

/-- The JSON body returned by `predict_batch` (app.py line 417). -/
structure BatchResponse where
  results : List BatchItem
  threshold_usado : ℚ
  deriving DecidableEq, Repr

example : pyRound 4 (21/50 : ℚ) = 21/50 := by
  norm_num [pyRound, roundHalfToEven]

example : pyRound 4 (nivel_confianca 0 (42/100)) = 21/25 := by
  norm_num [pyRound, roundHalfToEven, nivel_confianca, confianca, min_def,
    abs_of_nonneg, abs_of_nonpos]

example : nivel_risco (42/100) = "Médio" := by norm_num [nivel_risco]

example : classificacao (42/100) (42/100) = "Alto Risco" := by
  norm_num [classificacao]

/-! ### String helpers

Embeddings of the Python string operations used by
`FeatureStore.select_features`: `str.endswith` and the substring test
`f in c`, both phrased over character lists. -/

/-- `listLeads needle hay`: `needle` begins `hay` (character-wise). -/
def listLeads : List Char → List Char → Bool
  | [], _ => true
  | _ :: _, [] => false
  | a :: as, b :: bs => a = b && listLeads as bs

/-- `listHasSub needle hay`: `needle` occurs contiguously inside `hay`. -/
def listHasSub (needle : List Char) : List Char → Bool
  | [] => needle.isEmpty
  | h :: t => listLeads needle (h :: t) || listHasSub needle t

/-- Python `c.endswith(s)`. -/
def strEndsWith (c s : String) : Bool :=
  listLeads s.toList.reverse c.toList.reverse

/-- Python `f in c` (substring containment). -/
def strContains (c f : String) : Bool :=
  listHasSub f.toList c.toList

/-! ### Feature Matcher (`feature_store.py`, `select_features`) -/

/-- feature_store.py lines 145–168: the per-canonical-name matching of one
loop iteration. Tier 1 (exact, line 149): if `f` is itself a column, select
`f` alone. Tier 2 (suffix, line 154): all columns ending with `"__" + f` or
with `f`. Tier 3 (containment, line 158): if tier 2 found nothing, all
columns containing `f`. -/
def matchesFor (allCols : List String) (f : String) : List String :=
  if f ∈ allCols then [f]
  else
    let m := allCols.filter fun c => strEndsWith c ("__" ++ f) || strEndsWith c f
    if m.isEmpty then allCols.filter fun c => strContains c f
    else m

/-- feature_store.py lines 145–168: the running `updated_selected_features`
list accumulated across the canonical names in contract order. -/
def rawSelection (selected allCols : List String) : List String :=
  selected.foldl (fun acc f => acc ++ matchesFor allCols f) []

/-- Python `list(dict.fromkeys(l))` with an explicit seen-set:
deduplication preserving first-occurrence order. -/
def dedupFirstAux (seen : List String) : List String → List String
  | [] => []
  | x :: xs =>
    if x ∈ seen then dedupFirstAux seen xs
    else x :: dedupFirstAux (x :: seen) xs

/-- feature_store.py line 182: `list(dict.fromkeys(updated_selected_features))`. -/
def dedupFirst (l : List String) : List String := dedupFirstAux [] l

/-- feature_store.py lines 139–187: the column-name computation of
`select_features` — accumulate matches over the contract, fail with the
`ValueError` of line 178 when nothing matched (checked before dedup, line
170), otherwise deduplicate preserving order (line 182). -/
def selectNames (selected allCols : List String) : Except String (List String) :=
  let raw := rawSelection selected allCols
  if raw.isEmpty then
    .error "Nenhuma feature do selected_features bateu com as colunas transformadas!"
  else
    .ok (dedupFirst raw)

/-! ### Spec-side formulation of the Matcher (for the refinement claim).

Modelled from the spec: §4.1 steps 1–5, with each tier a named function and
the per-name selections combined by concatenation in contract order and then
deduplicated preserving first occurrences. -/

/-- Modelled from the spec: §4.1 step 1, exact match tier. -/
def tierExact (allCols : List String) (name : String) : Option (List String) :=
  if name ∈ allCols then some [name] else none

/-- Modelled from the spec: §4.1 step 2, suffix tier — every column ending
with `"__" + name` or ending with `name` as a literal suffix. -/
def tierSuffix (allCols : List String) (name : String) : List String :=
  allCols.filter fun c => strEndsWith c ("__" ++ name) || strEndsWith c name

/-- Modelled from the spec: §4.1 step 3, containment fallback tier. -/
def tierContain (allCols : List String) (name : String) : List String :=
  allCols.filter fun c => strContains c name

/-- Modelled from the spec: the ordered three-tier selection for one
canonical name. -/
def specTierSelect (allCols : List String) (name : String) : List String :=
  match tierExact allCols name with
  | some sel => sel
  | none =>
    let s := tierSuffix allCols name
    if s.isEmpty then tierContain allCols name else s

/-- Modelled from the spec: §4.1 step 5 — append per-name matches across the
contract in order, then deduplicate preserving first-occurrence order. -/
def specSelection (canonical allCols : List String) : List String :=
  dedupFirst ((canonical.map (specTierSelect allCols)).flatten)

example :
    selectNames ["person_income", "loan_grade"]
      ["num__person_income", "cat__loan_grade_A"] =
    .ok ["num__person_income", "cat__loan_grade_A"] := rfl

/-! ### Data frames

A pandas DataFrame is embedded as a list of named columns together with the
rows, each row a list of rational values aligned with the column list. -/

/-- A tabular frame: ordered column names and ordered rows. -/
structure Frame where
  cols : List String
  rows : List (List ℚ)
  deriving DecidableEq, Repr

/-- Reading one row restricted to `sel`, each value looked up at the
position its column has in `cols` (pandas column indexing). -/
def restrictRow (cols sel : List String) (row : List ℚ) : List ℚ :=
  sel.map fun c => row.getD (cols.indexOf c) 0

/-- Pandas `X_full[sel]` (feature_store.py line 189): succeeds with the
columns reordered to `sel` iff every name of `sel` is a column of the
frame, otherwise raises a `KeyError` (modelled as `none`). -/
def Frame.reindex (fr : Frame) (sel : List String) : Option Frame :=
  if sel.all fun c => decide (c ∈ fr.cols) then
    some ⟨sel, fr.rows.map (restrictRow fr.cols sel)⟩
  else none

/-! ### FeatureStore (`feature_store.py`) -/

/-- The trained preprocessing pipeline, opaque to this core
(spec §1, §6): it exposes the transformed column names
(`get_feature_names_out`, feature_store.py line 110) and acts row-wise on
the frame (`transform`, line 109, row order preserving per spec §3). -/
structure Preprocessor where
  featureNamesOut : List String
  transformRow : List ℚ → List ℚ

/-- feature_store.py lines 20–23: the three fields set by the constructor. -/
structure FeatureStore where
  preprocessor : Option Preprocessor
  selected_features : Option (List String)
  _loaded : Bool

/-- feature_store.py `__init__`: bare construction, nothing loaded. -/
def FeatureStore.init : FeatureStore :=
  { preprocessor := none, selected_features := none, _loaded := false }

/-- feature_store.py lines 25–90, `FeatureStore.load`: the pickled
preprocessor artifact and the pickled feature-selection dict are modelled
as optional inputs (`none` = the file is missing or unreadable, raised and
propagated); the `selected_features` key is looked up in the dict
(`KeyError` when absent, line 79); only on full success is the store
returned, with the loaded flag set (line 89). -/
def FeatureStore.load (preArtifact : Option Preprocessor)
    (featArtifact : Option (List (String × List String))) :
    Except String FeatureStore :=
  match preArtifact with
  | none => .error "Arquivo preprocessor.pkl não encontrado"
  | some pre =>
    match featArtifact with
    | none => .error "Arquivo feature_selection.pkl não encontrado"
    | some featureData =>
      match featureData.lookup "selected_features" with
      | none => .error "Chave selected_features não encontrada no arquivo"
      | some feats =>
        .ok { preprocessor := some pre, selected_features := some feats,
              _loaded := true }

/-- feature_store.py lines 93–130, `transform_all`: guard on the loaded
flag (lines 99–101, a `RuntimeError` before the preprocessor is touched),
then apply the trained pipeline and rebuild the frame with the transformed
feature names, preserving the rows' order (lines 109–124). -/
def FeatureStore.transform_all (store : FeatureStore) (df_raw : Frame) :
    Except String Frame :=
  if store._loaded = false then
    .error "FeatureStore não carregada. Use FeatureStore.load()."
  else
    match store.preprocessor with
    | none => .error "AttributeError: NoneType has no attribute transform"
    | some pre =>
      .ok { cols := pre.featureNamesOut,
            rows := df_raw.rows.map pre.transformRow }

/-- feature_store.py lines 132–189, `select_features`: compute the matched
column names from the contract (`selectNames`), then index the frame by
them (line 189). Iterating a `None` contract raises a `TypeError`. -/
def FeatureStore.select_features (store : FeatureStore) (X_full : Frame) :
    Except String Frame :=
  match store.selected_features with
  | none => .error "TypeError: NoneType is not iterable"
  | some sel =>
    match selectNames sel X_full.cols with
    | .error e => .error e
    | .ok out =>
      match X_full.reindex out with
      | none => .error "KeyError"
      | some fr => .ok fr

/-! ### Model inference (`predictor.py`, `ModelProducao.predict_proba`) -/

/-- A rectangular 2-d numpy array: its column count and its rows. -/
structure NDArray2 where
  ncols : ℕ
  rows : List (List ℚ)
  deriving DecidableEq, Repr

/-- The raw return value of the underlying model's `predict_proba`:
either a 1-dimensional array or a 2-dimensional one. -/
inductive ProbaRaw where
  | one : List ℚ → ProbaRaw
  | two : NDArray2 → ProbaRaw
  deriving DecidableEq, Repr

/-- predictor.py lines 20–44, `ModelProducao.predict_proba`: a 1-d output
`p` is reshaped and stacked into the two-column matrix `[1 - p, p]`
(lines 35–37); a 2-d output with a column count other than 2 raises the
`ValueError` of line 39; a two-column output passes through. -/
def ModelProducao.predict_proba (raw : ProbaRaw) :
    Except String (List (List ℚ)) :=
  match raw with
  | .one p => .ok (p.map fun x => [1 - x, x])
  | .two m =>
    if m.ncols ≠ 2 then
      .error "Formato de saída inesperado do modelo"
    else
      .ok m.rows

/-! ### Prediction orchestration (`app.py`) -/

/-- app.py line 308: `prob_default = float(proba[0, 1])` — the second entry
of the first row; an empty or too-narrow matrix raises an `IndexError`,
caught by the surrounding handler. -/
def extractProb00 (rows : List (List ℚ)) : Except String ℚ :=
  match rows with
  | (_ :: b :: _) :: _ => .ok b
  | _ => .error "IndexError"

/-- app.py lines 304–351: the inference-and-scoring tail of the
single-record `predict` path, from the raw model output and the caller
threshold to the response. No validation is applied to the extracted
probability. -/
def predictInfer (raw : ProbaRaw) (threshold : ℚ) :
    Except String PredictResponse := do
  let proba ← ModelProducao.predict_proba raw
  let prob_default ← extractProb00 proba
  pure (scorePredict prob_default threshold)

/-- The trained classifier, opaque to this core (spec §1, §6 and §3's
row-preservation invariant): it emits a per-row probability of default. -/
structure Classifier where
  rowProb : List ℚ → ℚ

/-- The underlying LightGBM `predict_proba` on a selected frame: the
two-column matrix `[P(no-default), P(default)]`, one row per input row. -/
def Classifier.rawProba (m : Classifier) (X : Frame) : ProbaRaw :=
  .two { ncols := 2, rows := X.rows.map fun r => [1 - m.rowProb r, m.rowProb r] }

/-- app.py line 390: `prob_default = proba[:, 1]`. -/
def columnOne (rows : List (List ℚ)) : List ℚ :=
  rows.map fun r => r.getD 1 0

/-- app.py lines 354–417, `predict_batch`: build the frame from the
records, run `transform_all` and `select_features` of the loaded store,
run the model, take the second probability column, and score each row with
the batch threshold, in order. -/
def predict_batch (store : FeatureStore) (m : Classifier) (records : Frame)
    (threshold : ℚ) : Except String BatchResponse := do
  let X_full ← store.transform_all records
  let X_final ← store.select_features X_full
  let proba ← ModelProducao.predict_proba (m.rawProba X_final)
  let prob_default := columnOne proba
  pure { results := prob_default.map fun p => scoreBatchItem p threshold,
         threshold_usado := threshold }

/-! ### Supporting lemmas -/

lemma foldl_append_eq (g : String → List String) (l : List String) :
    ∀ acc, l.foldl (fun a f => a ++ g f) acc = acc ++ (l.map g).flatten := by
  induction l with
  | nil => intro acc; simp
  | cons f fs ih => intro acc; simp [ih, List.append_assoc]

lemma rawSelection_eq_flatten (selected allCols : List String) :
    rawSelection selected allCols =
      (selected.map (matchesFor allCols)).flatten := by
  simpa using foldl_append_eq (matchesFor allCols) selected []

lemma mem_dedupFirstAux (x : String) :
    ∀ (l seen : List String),
      x ∈ dedupFirstAux seen l ↔ x ∈ l ∧ x ∉ seen := by
  intro l
  induction l with
  | nil => intro seen; simp [dedupFirstAux]
  | cons a as ih =>
    intro seen
    simp only [dedupFirstAux]
    split_ifs with ha
    · rw [ih]
      simp only [List.mem_cons]
      constructor
      · rintro ⟨h1, h2⟩; exact ⟨Or.inr h1, h2⟩
      · rintro ⟨h1 | h1, h2⟩
        · exact absurd (h1 ▸ ha) h2
        · exact ⟨h1, h2⟩
    · simp only [List.mem_cons, ih, List.mem_cons, not_or]
      constructor
      · rintro (rfl | ⟨h1, h2, h3⟩)
        · exact ⟨Or.inl rfl, ha⟩
        · exact ⟨Or.inr h1, h3⟩
      · rintro ⟨rfl | h1, h2⟩
        · exact Or.inl rfl
        · by_cases hxa : x = a
          · exact Or.inl hxa
          · exact Or.inr ⟨h1, hxa, h2⟩

lemma nodup_dedupFirstAux :
    ∀ (l seen : List String), (dedupFirstAux seen l).Nodup := by
  intro l
  induction l with
  | nil => intro seen; simp [dedupFirstAux]
  | cons a as ih =>
    intro seen
    simp only [dedupFirstAux]
    split_ifs with ha
    · exact ih seen
    · refine List.nodup_cons.mpr ⟨?_, ih (a :: seen)⟩
      intro hmem
      exact ((mem_dedupFirstAux a as (a :: seen)).mp hmem).2 (List.mem_cons_self a seen)

lemma dedupFirst_nodup (l : List String) : (dedupFirst l).Nodup :=
  nodup_dedupFirstAux l []

lemma mem_dedupFirst (x : String) (l : List String) :
    x ∈ dedupFirst l ↔ x ∈ l := by
  simp [dedupFirst, mem_dedupFirstAux]

lemma dedupFirst_ne_nil (l : List String) (h : l ≠ []) : dedupFirst l ≠ [] := by
  obtain ⟨x, hx⟩ := List.exists_mem_of_ne_nil l h
  intro hnil
  have := (mem_dedupFirst x l).mpr hx
  simp [hnil] at this

lemma matchesFor_subset (allCols : List String) (f : String) :
    ∀ c ∈ matchesFor allCols f, c ∈ allCols := by
  intro c hc
  simp only [matchesFor] at hc
  split_ifs at hc with h1 h2
  · rw [List.mem_singleton] at hc
    exact hc ▸ h1
  · exact (List.mem_filter.mp hc).1
  · exact (List.mem_filter.mp hc).1

lemma rawSelection_subset (selected allCols : List String) :
    ∀ c ∈ rawSelection selected allCols, c ∈ allCols := by
  intro c hc
  rw [rawSelection_eq_flatten] at hc
  obtain ⟨l, hl, hcl⟩ := List.mem_flatten.mp hc
  obtain ⟨f, _, rfl⟩ := List.mem_map.mp hl
  exact matchesFor_subset allCols f c hcl

lemma matchesFor_spec (allCols : List String) (f : String) :
    matchesFor allCols f = specTierSelect allCols f := by
  unfold matchesFor specTierSelect tierExact tierSuffix tierContain
  by_cases h : f ∈ allCols <;> simp [h]

lemma selectNames_ok_spec (selected allCols out : List String)
    (h : selectNames selected allCols = .ok out) :
    out = dedupFirst (rawSelection selected allCols) := by
  simp only [selectNames] at h
  split_ifs at h with hempty
  exact (Except.ok.inj h).symm

lemma selectNames_subset (selected allCols out : List String)
    (h : selectNames selected allCols = .ok out) :
    ∀ c ∈ out, c ∈ allCols := by
  intro c hc
  rw [selectNames_ok_spec selected allCols out h, mem_dedupFirst] at hc
  exact rawSelection_subset _ _ _ hc

lemma select_features_ok (store : FeatureStore) (X : Frame)
    (sel out : List String)
    (hsel : store.selected_features = some sel)
    (hok : selectNames sel X.cols = .ok out) :
    store.select_features X =
      .ok ⟨out, X.rows.map (restrictRow X.cols out)⟩ := by
  have hsub := selectNames_subset sel X.cols out hok
  have hre : X.reindex out = some ⟨out, X.rows.map (restrictRow X.cols out)⟩ := by
    unfold Frame.reindex
    rw [if_pos (List.all_eq_true.mpr fun x hx => decide_eq_true (hsub x hx))]
  simp only [FeatureStore.select_features, hsel, hok, hre]

lemma classificacao_alto_iff (p t : ℚ) :
    classificacao p t = "Alto Risco" ↔ p ≥ t := by
  unfold classificacao
  split_ifs with h
  · simp [h]
  · exact ⟨fun hc => absurd hc (by decide), fun hk => absurd hk h⟩

/-! ### Claims -/

/-- C1: for every probability `p` and threshold `t` in `[0,1]`, both the
single-record path (app.py line 328) and the batch path (line 409) return
classification "Alto Risco" (HighRisk) exactly when `p ≥ t`; in
particular the boundary `p = t` is classified high risk. -/
theorem C1_classification_threshold_boundary (p t : ℚ)
    (hp0 : 0 ≤ p) (hp1 : p ≤ 1) (ht0 : 0 ≤ t) (ht1 : t ≤ 1) :
    ((scorePredict p t).classificacao = "Alto Risco" ↔ p ≥ t) ∧
    ((scoreBatchItem p t).classificacao = "Alto Risco" ↔ p ≥ t) :=
  ⟨classificacao_alto_iff p t, classificacao_alto_iff p t⟩

/-- Witness for C1 at the boundary `p = t = 0.42`: both paths classify the
record as high risk. -/
theorem C1_classification_threshold_boundary_witness :
    ((scorePredict (42/100) (42/100)).classificacao = "Alto Risco" ↔
      (42/100 : ℚ) ≥ 42/100) ∧
    ((scoreBatchItem (42/100) (42/100)).classificacao = "Alto Risco" ↔
      (42/100 : ℚ) ≥ 42/100) :=
  C1_classification_threshold_boundary (42/100) (42/100)
    (by norm_num) (by norm_num) (by norm_num) (by norm_num)

/-- C5: the risk tier of the single-record response is a function of the
probability alone (identical for any two thresholds), with bands
Baixo for `p ≤ 0.30`, Médio for `0.30 < p ≤ 0.60`, Alto for `p > 0.60`,
both band boundaries belonging to the lower tier. -/
theorem C5_risk_tier_bands (p t u : ℚ) :
    (scorePredict p t).nivel_risco = (scorePredict p u).nivel_risco ∧
    (p ≤ 30/100 → (scorePredict p t).nivel_risco = "Baixo") ∧
    (30/100 < p → p ≤ 60/100 → (scorePredict p t).nivel_risco = "Médio") ∧
    (60/100 < p → (scorePredict p t).nivel_risco = "Alto") := by
  refine ⟨rfl, ?_, ?_, ?_⟩
  · intro h
    simp [scorePredict, nivel_risco, h]
  · intro h1 h2
    simp [scorePredict, nivel_risco, h2, not_le.mpr h1]
  · intro h1
    have h2 : ¬p ≤ 30/100 := not_le.mpr (lt_trans (by norm_num) h1)
    have h3 : ¬p ≤ 60/100 := not_le.mpr h1
    simp [scorePredict, nivel_risco, h2, h3]

/-- Witness for C5 at the band boundaries 0.30 and 0.60 and beyond. -/
theorem C5_risk_tier_bands_witness :
    (scorePredict (30/100) 0).nivel_risco = "Baixo" ∧
    (scorePredict (60/100) (1/2)).nivel_risco = "Médio" ∧
    (scorePredict (61/100) 0).nivel_risco = "Alto" :=
  ⟨(C5_risk_tier_bands (30/100) 0 1).2.1 (by norm_num),
   (C5_risk_tier_bands (60/100) (1/2) 1).2.2.1 (by norm_num) (by norm_num),
   (C5_risk_tier_bands (61/100) 0 1).2.2.2 (by norm_num)⟩

/-- C6: a 1-dimensional model output `p` is normalized by
`ModelProducao.predict_proba` into the two-column matrix whose rows are
`[1 - pᵢ, pᵢ]` (complement first, probability of default second);
a 2-dimensional output with a column count other than 2 raises the shape
`ValueError` instead of returning. -/
theorem C6_predict_proba_shape (p : List ℚ) (m : NDArray2)
    (hm : m.ncols ≠ 2) :
    ModelProducao.predict_proba (.one p) = .ok (p.map fun x => [1 - x, x]) ∧
    ModelProducao.predict_proba (.two m) =
      .error "Formato de saída inesperado do modelo" := by
  refine ⟨rfl, ?_⟩
  simp [ModelProducao.predict_proba, hm]

/-- Witness for C6: a singleton 1-d output becomes `[[3/4, 1/4]]`, and a
three-column 2-d output is rejected. -/
theorem C6_predict_proba_shape_witness :
    ModelProducao.predict_proba (.one [1/4]) = .ok [[3/4, 1/4]] ∧
    ModelProducao.predict_proba (.two ⟨3, [[1, 0, 0]]⟩) =
      .error "Formato de saída inesperado do modelo" := by
  obtain ⟨h1, h2⟩ := C6_predict_proba_shape [1/4] ⟨3, [[1, 0, 0]]⟩ (by norm_num)
  refine ⟨h1.trans ?_, h2⟩
  norm_num

/-- C7 counterexample: with the model emitting the out-of-range default
probability 3/2, the single-record path raises nothing and returns a fully
assembled response (classification computed from 3/2); no `InternalError`
occurs. -/
theorem C7_no_range_check_counterexample :
    predictInfer (.one [3/2]) (42/100) =
      .ok { probabilidade_default := 3/2, probabilidade_percentual := 150,
            classificacao := "Alto Risco", nivel_risco := "Alto",
            confianca := 27/25, nivel_confianca := 1,
            threshold_usado := 42/100 } := by
  rw [show predictInfer (.one [3/2]) (42/100) =
        .ok (scorePredict (3/2) (42/100)) from rfl]
  norm_num [scorePredict, PredictResponse.mk.injEq, classificacao,
    nivel_risco, confianca, nivel_confianca, pyRound, roundHalfToEven,
    min_def, abs_of_nonneg, abs_of_nonpos]

/-- C7 amended: the single-record inference-and-scoring stage applies no
range validation to the extracted probability — for every `p`, including
values outside `[0,1]`, it returns the assembled response of `p`. -/
theorem C7_amended_no_validation (p t : ℚ) :
    predictInfer (.one [p]) t = .ok (scorePredict p t) := rfl

/-- C10: `transform_all` on any store whose loaded flag is false (as after
bare construction) fails with the `RuntimeError`, whatever the preprocessor
field holds and before using it; bare construction leaves the flag false,
and every store produced by `FeatureStore.load` has it true. -/
theorem C10_unloaded_guard :
    (∀ (store : FeatureStore) (df : Frame), store._loaded = false →
        store.transform_all df =
          .error "FeatureStore não carregada. Use FeatureStore.load().") ∧
    FeatureStore.init._loaded = false ∧
    (∀ preArtifact featArtifact store,
        FeatureStore.load preArtifact featArtifact = .ok store →
        store._loaded = true) := by
  refine ⟨?_, rfl, ?_⟩
  · intro store df h
    simp [FeatureStore.transform_all, h]
  · intro preArtifact featArtifact store h
    cases preArtifact with
    | none => simp [FeatureStore.load] at h
    | some pre =>
      cases featArtifact with
      | none => simp [FeatureStore.load] at h
      | some fd =>
        cases hfd : fd.lookup "selected_features" with
        | none => simp [FeatureStore.load, hfd] at h
        | some feats =>
          simp only [FeatureStore.load, hfd] at h
          obtain rfl := Except.ok.inj h
          rfl

/-- Witness for C10: a bare-constructed store rejects `transform_all`, and
a successful load yields a loaded store. -/
theorem C10_unloaded_guard_witness :
    FeatureStore.init.transform_all ⟨["a"], [[1]]⟩ =
      .error "FeatureStore não carregada. Use FeatureStore.load()." :=
  C10_unloaded_guard.1 FeatureStore.init ⟨["a"], [[1]]⟩ rfl

/-- C2 counterexample: at probability 0 and threshold 0.42 the batch path
returns confidence 0.42 — the raw distance `|p − t|` — not
`min(|p − t|·2, 1) = 0.84` as the claim states for every scored record. -/
theorem C2_batch_confidence_counterexample :
    (scoreBatchItem 0 (42/100)).confianca = 21/50 ∧
    min (|(0:ℚ) - 42/100| * 2) 1 = 21/25 ∧
    (21/50 : ℚ) ≠ 21/25 := by
  refine ⟨?_, ?_, by norm_num⟩
  · norm_num [scoreBatchItem, confianca, pyRound, roundHalfToEven,
      zero_sub, abs_neg, abs_of_nonneg]
  · norm_num [min_def, zero_sub, abs_neg, abs_of_nonneg]

/-- C2 amended: the single-record path returns the normalized confidence
`nivel_confianca = min(|p − t|·2, 1)` (rounded to 4 decimals) alongside the
raw `confianca = |p − t|`; the batch path returns only the raw `|p − t|`
as its confidence. The normalized confidence is symmetric in `p` and `t`,
vanishes exactly at `p = t`, and saturates to 1 whenever `|p − t| ≥ 1/2`. -/
theorem C2_amended_confidence (p t : ℚ) :
    (scorePredict p t).nivel_confianca = pyRound 4 (min (|p - t| * 2) 1) ∧
    (scorePredict p t).confianca = pyRound 4 |p - t| ∧
    (scoreBatchItem p t).confianca = pyRound 4 |p - t| ∧
    nivel_confianca p t = nivel_confianca t p ∧
    (nivel_confianca p t = 0 ↔ p = t) ∧
    (1/2 ≤ |p - t| → nivel_confianca p t = 1) := by
  refine ⟨rfl, rfl, rfl, ?_, ?_, ?_⟩
  · unfold nivel_confianca confianca
    rw [abs_sub_comm]
  · unfold nivel_confianca confianca
    constructor
    · intro h
      rcases le_total (|p - t| * 2) 1 with hle | hle
      · rw [min_eq_left hle] at h
        have habs : |p - t| = 0 := by linarith [abs_nonneg (p - t)]
        exact sub_eq_zero.mp (abs_eq_zero.mp habs)
      · rw [min_eq_right hle] at h
        norm_num at h
    · rintro rfl
      simp
  · intro h
    unfold nivel_confianca confianca
    exact min_eq_right (by linarith)

/-- Witness for C2's amended claim at concrete inputs: normalized
confidence 0.84 at `(0, 0.42)`, batch confidence 0.42 at the same point,
zero at `p = t`, saturation at distance 3/4. -/
theorem C2_amended_confidence_witness :
    (scorePredict 0 (42/100)).nivel_confianca = 21/25 ∧
    (scoreBatchItem 0 (42/100)).confianca = 21/50 ∧
    nivel_confianca (3/4) (3/4) = 0 ∧
    nivel_confianca 0 (3/4) = 1 := by
  refine ⟨(C2_amended_confidence 0 (42/100)).1.trans ?_,
    (C2_amended_confidence 0 (42/100)).2.2.1.trans ?_,
    (C2_amended_confidence (3/4) (3/4)).2.2.2.2.1.mpr rfl,
    (C2_amended_confidence 0 (3/4)).2.2.2.2.2
      (by norm_num [zero_sub, abs_neg, abs_of_nonneg])⟩
  · norm_num [pyRound, roundHalfToEven, min_def, zero_sub, abs_neg,
      abs_of_nonneg]
  · norm_num [pyRound, roundHalfToEven, zero_sub, abs_neg, abs_of_nonneg]

/-- C3: whenever `select_features`'s name computation succeeds, its output
is exactly the spec's three-tier selection — per canonical name in contract
order: the exact tier, else the suffix tier, else the containment tier —
concatenated and then deduplicated preserving first occurrence, and it
contains no repeated column name. -/
theorem C3_three_tier_selection (selected allCols out : List String)
    (h : selectNames selected allCols = .ok out) :
    out = specSelection selected allCols ∧ out.Nodup := by
  obtain rfl := selectNames_ok_spec selected allCols out h
  refine ⟨?_, dedupFirst_nodup _⟩
  unfold specSelection
  rw [rawSelection_eq_flatten,
    show matchesFor allCols = specTierSelect allCols from
      funext (matchesFor_spec allCols)]

/-- Witness for C3: the spec's end-to-end scenario 4 — `person_income`
matches by suffix, `loan_grade` by containment; the result is the
deduplicated spec selection and has no duplicates. -/
theorem C3_three_tier_selection_witness :
    (["num__person_income", "cat__loan_grade_A"] : List String) =
      specSelection ["person_income", "loan_grade"]
        ["num__person_income", "cat__loan_grade_A"] ∧
    (["num__person_income", "cat__loan_grade_A"] : List String).Nodup :=
  C3_three_tier_selection ["person_income", "loan_grade"]
    ["num__person_income", "cat__loan_grade_A"]
    ["num__person_income", "cat__loan_grade_A"] rfl

/-- C4: the matcher raises the fatal `ValueError` (`FeatureMatchError`)
exactly when no canonical name matched any transformed column — the
accumulated pre-dedup selection is empty; when at least one matched, it
returns a non-empty selection without raising. -/
theorem C4_fatal_iff_no_match (selected allCols : List String) :
    ((∃ e, selectNames selected allCols = .error e) ↔
       ∀ f ∈ selected, matchesFor allCols f = []) ∧
    (∀ out, selectNames selected allCols = .ok out → out ≠ []) := by
  have hraw : rawSelection selected allCols = [] ↔
      ∀ f ∈ selected, matchesFor allCols f = [] := by
    rw [rawSelection_eq_flatten, List.flatten_eq_nil_iff]
    constructor
    · intro h f hf
      exact h _ (List.mem_map_of_mem _ hf)
    · rintro h l hl
      obtain ⟨f, hf, rfl⟩ := List.mem_map.mp hl
      exact h f hf
  constructor
  · constructor
    · rintro ⟨e, he⟩
      simp only [selectNames] at he
      split_ifs at he with hempty
      exact hraw.mp (List.isEmpty_iff.mp hempty)
    · intro h
      refine ⟨"Nenhuma feature do selected_features bateu com as colunas transformadas!", ?_⟩
      simp only [selectNames]
      rw [if_pos (List.isEmpty_iff.mpr (hraw.mpr h))]
  · intro out hout
    obtain rfl := selectNames_ok_spec selected allCols out hout
    simp only [selectNames] at hout
    split_ifs at hout with hempty
    exact dedupFirst_ne_nil _ fun hnil => hempty (List.isEmpty_iff.mpr hnil)

/-- Witness for C4: a contract matching nothing raises; a contract with
one suffix match returns the non-empty selection. -/
theorem C4_fatal_iff_no_match_witness :
    (∃ e, selectNames ["x"] ["col_a"] = .error e) ∧
    (["num__person_income"] : List String) ≠ [] := by
  refine ⟨(C4_fatal_iff_no_match ["x"] ["col_a"]).1.mpr ?_,
    (C4_fatal_iff_no_match ["person_income"] ["num__person_income"]).2
      ["num__person_income"] rfl⟩
  intro f hf
  rw [List.mem_singleton] at hf
  subst hf
  rfl

/-- C9: whenever the matcher succeeds, every name of the final selection is
a column of the input frame, so the concluding indexing is total:
`select_features` returns — and cannot fail with a missing-column
`KeyError` — the frame whose columns are exactly the selection in order. -/
theorem C9_selection_members_and_total (store : FeatureStore) (X : Frame)
    (sel out : List String)
    (hsel : store.selected_features = some sel)
    (hok : selectNames sel X.cols = .ok out) :
    (∀ c ∈ out, c ∈ X.cols) ∧
    store.select_features X =
      .ok ⟨out, X.rows.map (restrictRow X.cols out)⟩ :=
  ⟨selectNames_subset sel X.cols out hok,
   select_features_ok store X sel out hsel hok⟩

/-- Witness for C9 on a one-column frame: the selected name is a column of
the frame and the returned frame restricts to it. -/
theorem C9_selection_members_and_total_witness :
    (∀ c ∈ (["num__person_income"] : List String),
      c ∈ (["num__person_income"] : List String)) ∧
    FeatureStore.select_features
      { preprocessor := none, selected_features := some ["person_income"],
        _loaded := true }
      ⟨["num__person_income"], [[1]]⟩ =
      .ok ⟨["num__person_income"], [[1]]⟩ := by
  have h := C9_selection_members_and_total
    { preprocessor := none, selected_features := some ["person_income"],
      _loaded := true }
    ⟨["num__person_income"], [[1]]⟩ ["person_income"] ["num__person_income"]
    rfl rfl
  exact ⟨h.1, h.2.trans rfl⟩

/-- C8: with a loaded store and the row-wise external transform and model,
the batch path returns one scored item per input record — the response
equals the input rows mapped through transform, selection, per-row
inference and scoring — so row count and row order are preserved and the
i-th assessment is computed from the i-th record. -/
theorem C8_batch_row_preservation (store : FeatureStore) (pre : Preprocessor)
    (sel out : List String) (m : Classifier) (records : Frame) (t : ℚ)
    (hl : store._loaded = true)
    (hp : store.preprocessor = some pre)
    (hs : store.selected_features = some sel)
    (hok : selectNames sel pre.featureNamesOut = .ok out) :
    predict_batch store m records t =
      .ok { results := records.rows.map fun r =>
              scoreBatchItem
                (m.rowProb (restrictRow pre.featureNamesOut out
                  (pre.transformRow r))) t,
            threshold_usado := t } ∧
    ∀ res, predict_batch store m records t = .ok res →
      res.results.length = records.rows.length ∧
      ∀ i (h1 : i < res.results.length) (h2 : i < records.rows.length),
        res.results.get ⟨i, h1⟩ =
          scoreBatchItem
            (m.rowProb (restrictRow pre.featureNamesOut out
              (pre.transformRow (records.rows.get ⟨i, h2⟩)))) t := by
  have htr : store.transform_all records =
      .ok ⟨pre.featureNamesOut, records.rows.map pre.transformRow⟩ := by
    simp [FeatureStore.transform_all, hl, hp]
  have hself : store.select_features
      ⟨pre.featureNamesOut, records.rows.map pre.transformRow⟩ =
      .ok ⟨out, (records.rows.map pre.transformRow).map
        (restrictRow pre.featureNamesOut out)⟩ :=
    select_features_ok _ _ sel out hs hok
  have hmain : predict_batch store m records t =
      .ok { results := records.rows.map fun r =>
              scoreBatchItem
                (m.rowProb (restrictRow pre.featureNamesOut out
                  (pre.transformRow r))) t,
            threshold_usado := t } := by
    unfold predict_batch
    rw [htr]
    simp only [Bind.bind, Except.bind]
    rw [hself]
    simp only [Classifier.rawProba, ModelProducao.predict_proba, columnOne,
      Pure.pure, Except.pure]
    norm_num [List.map_map, Function.comp_def, List.getD_cons_succ,
      List.getD_cons_zero]
  refine ⟨hmain, ?_⟩
  intro res hres
  rw [hmain] at hres
  obtain rfl := Except.ok.inj hres
  constructor
  · simp
  · intro i h1 h2
    simp

/-- Witness for C8 on a two-record batch with an identity transform: both
records appear, in order, scored against threshold 0.42. -/
theorem C8_batch_row_preservation_witness :
    predict_batch
      { preprocessor := some ⟨["num__a"], fun r => r⟩,
        selected_features := some ["a"], _loaded := true }
      ⟨fun r => r.getD 0 0⟩ ⟨["a"], [[1/2], [3/4]]⟩ (42/100) =
      .ok { results := [⟨1/2, "Alto Risco", 2/25⟩, ⟨3/4, "Alto Risco", 33/100⟩],
            threshold_usado := 42/100 } := by
  have h := (C8_batch_row_preservation
    { preprocessor := some ⟨["num__a"], fun r => r⟩,
      selected_features := some ["a"], _loaded := true }
    ⟨["num__a"], fun r => r⟩ ["a"] ["num__a"] ⟨fun r => r.getD 0 0⟩
    ⟨["a"], [[1/2], [3/4]]⟩ (42/100) rfl rfl rfl rfl).1
  refine h.trans ?_
  norm_num [scoreBatchItem, classificacao, confianca, restrictRow,
    BatchResponse.mk.injEq, BatchItem.mk.injEq, pyRound, roundHalfToEven,
    abs_of_nonneg, abs_of_nonpos, min_def]

end CreditRisk
